import Mathlib

/-!
Verification of the Cart & Order Lifecycle Manager of the christmas-shop
storefront client.  The definitions below are a shallow embedding of the
TypeScript source:

* src/contexts/CartContext.tsx — cart state, mutations, persistence;
* src/pages/OrderDetails.tsx  — payment handling for a loaded order;
* the Cart page (handleCheckout) — order submission.

TypeScript numbers that the code treats as integers (quantities, stock,
prices in cents) are modelled as Int.  React state updates and the two
localStorage effects of CartProvider are modelled by an explicit state
machine whose transitions run an operation and then settle the effects,
mirroring how React runs effects whose dependencies changed after a render.
-/

namespace Shop

/-- CartItem, the cart line stored by CartContext. -/
structure CartItem where
  productId : String
  name : String
  priceCents : Int
  imageBase64 : Option String
  quantity : Int
  stock : Int
  deriving DecidableEq, Repr

/-- Product snapshot passed to addToCart. -/
structure Product where
  id : String
  name : String
  priceCents : Int
  imageBase64 : Option String
  stock : Int
  deriving DecidableEq, Repr

/-- The line addToCart appends when the product is absent from the cart. -/
def insertedLine (product : Product) (quantity : Int) : CartItem :=
  { productId := product.id, name := product.name,
    priceCents := product.priceCents, imageBase64 := product.imageBase64,
    quantity := quantity, stock := product.stock }

/-- Body of the setItems updater of addToCart in CartContext.tsx: if the
product is already in the cart, replace its quantity unless the requested
quantity exceeds the snapshot stock (in which case the previous array is
returned untouched); otherwise append a new line built from the snapshot. -/
def addToCart (product : Product) (quantity : Int) (prevItems : List CartItem) :
    List CartItem :=
  match prevItems.find? (fun item => item.productId == product.id) with
  | some _ =>
      if quantity > product.stock then prevItems
      else prevItems.map (fun item =>
        if item.productId == product.id then { item with quantity := quantity }
        else item)
  | none => prevItems ++ [insertedLine product quantity]

/-- Body of removeFromCart: filter the line out. -/
def removeFromCart (productId : String) (prevItems : List CartItem) :
    List CartItem :=
  prevItems.filter (fun item => item.productId != productId)

/-- Body of updateQuantity: a non-positive quantity removes the line; a
quantity above the stored stock of the matching line leaves that line (and
hence the whole cart) unchanged; otherwise the matching line's quantity is
replaced. -/
def updateQuantity (productId : String) (quantity : Int)
    (prevItems : List CartItem) : List CartItem :=
  if quantity ≤ 0 then removeFromCart productId prevItems
  else prevItems.map (fun item =>
    if item.productId == productId then
      (if quantity > item.stock then item else { item with quantity := quantity })
    else item)

/-- Body of clearCart: the empty array. -/
def clearCart (_prevItems : List CartItem) : List CartItem := []

/-- getTotalPrice of CartContext. -/
def getTotalPrice (items : List CartItem) : Int :=
  items.foldl (fun total item => total + item.priceCents * item.quantity) 0

/-- getTotalItems of CartContext. -/
def getTotalItems (items : List CartItem) : Int :=
  items.foldl (fun total item => total + item.quantity) 0

/-! ## Cart mutation traces (for the stock invariant) -/

/-- One cart mutation, as exposed by CartContext. -/
inductive CartOp where
  | add (product : Product) (quantity : Int)
  | update (productId : String) (quantity : Int)
  | remove (productId : String)
  deriving DecidableEq, Repr

/-- Apply one mutation to the in-memory item list. -/
def applyOp (op : CartOp) (items : List CartItem) : List CartItem :=
  match op with
  | .add product quantity => addToCart product quantity items
  | .update productId quantity => updateQuantity productId quantity items
  | .remove productId => removeFromCart productId items

/-- Run a trace of mutations from a given cart. -/
def runOpsFrom (items : List CartItem) : List CartOp → List CartItem
  | [] => items
  | op :: rest => runOpsFrom (applyOp op items) rest

/-- Run a trace of mutations from the empty cart. -/
def runOps (ops : List CartOp) : List CartItem := runOpsFrom [] ops

/-- A single add request is well-bounded for the current cart when it asks
for at least one unit, at most the snapshot's stock, and — if the product is
already in the cart — at most the stored line's stock (the code keeps the
stored stock on a replace, so only such requests preserve the bound).
update and remove need no side condition: the code guards them itself. -/
def validOp (op : CartOp) (items : List CartItem) : Bool :=
  match op with
  | .add product quantity =>
      1 ≤ quantity && quantity ≤ product.stock &&
        items.all (fun item => item.productId != product.id ||
          quantity ≤ item.stock)
  | .update _ _ => true
  | .remove _ => true

/-- Every mutation of the trace is well-bounded for the cart it meets. -/
def validOps (items : List CartItem) : List CartOp → Bool
  | [] => true
  | op :: rest => validOp op items && validOps (applyOp op items) rest

/-- The per-line bound the stock invariant asserts. -/
def lineBounded (item : CartItem) : Prop :=
  1 ≤ item.quantity ∧ item.quantity ≤ item.stock

instance (item : CartItem) : Decidable (lineBounded item) := by
  unfold lineBounded; infer_instance

/-! ## CartProvider state machine

CartProvider keeps React state userId and items, and runs two effects:
a load effect with dependency [userId] that replaces items by the stored
snapshot of getCartKey userId, and a persist effect with dependency
[items, userId] that writes items under getCartKey userId whenever userId
is not null.  React re-runs an effect after a render exactly when one of
its dependencies changed by reference, so the model tracks the identity of
the items array with a counter (itemsRef), bumped precisely when a setItems
updater returns a new array — the one updater branch returning the previous
array unchanged is the stock-rejection branch of addToCart. -/

/-- getCartKey of CartContext.tsx. -/
def getCartKey (userId : Option String) : String :=
  match userId with
  | some id => "cart_" ++ id
  | none => "cart_guest"

/-- The localStorage content relevant to carts: key to stored item list. -/
def CartStore := String → Option (List CartItem)

/-- localStorage.setItem on the cart store. -/
def storePut (store : CartStore) (key : String) (items : List CartItem) :
    CartStore :=
  fun k => if k = key then some items else store k

/-- Full provider state: React state, the store, the dependency values each
effect last ran with (none when the effect never ran), and the reference
counter of the items array. -/
structure ProviderState where
  userId : Option String
  items : List CartItem
  store : CartStore
  loadSeen : Option (Option String)
  persistSeen : Option (Nat × Option String)
  itemsRef : Nat

/-- The store after the guarded write `if (userId !== null)
localStorage.setItem(getCartKey(userId), JSON.stringify(items))` — the body
shared by the persist effect and the flush inside setUserId. -/
def flushStore (s : ProviderState) : CartStore :=
  match s.userId with
  | some _ => storePut s.store (getCartKey s.userId) s.items
  | none => s.store

/-- One run of the load effect: replace the items by the stored snapshot of
the current key.  It runs exactly when its dependency userId changed. -/
def settleLoad (s : ProviderState) : ProviderState :=
  if s.loadSeen = some s.userId then s
  else { s with items := (s.store (getCartKey s.userId)).getD [],
                itemsRef := s.itemsRef + 1,
                loadSeen := some s.userId }

/-- One run of the persist effect: write the items under the current key
when userId is not null.  It runs exactly when a dependency (the items
array's identity, or userId) changed, and counts as run even when the null
guard suppresses the write. -/
def settlePersist (s : ProviderState) : ProviderState :=
  if s.persistSeen = some (s.itemsRef, s.userId) then s
  else { s with store := flushStore s,
                persistSeen := some (s.itemsRef, s.userId) }

/-- Run the two effects after a render: the load effect first (it is
declared first), then the persist effect. -/
def settle (s : ProviderState) : ProviderState := settlePersist (settleLoad s)

/-- Mounting CartProvider: null user, empty items, then the initial effect
pass. -/
def initProvider (store : CartStore) : ProviderState :=
  settle { userId := none, items := [], store := store,
           loadSeen := none, persistSeen := none, itemsRef := 0 }

/-- The state right after the synchronous part of setUserId of CartContext:
inside the setItems updater, the current items are flushed under the
previous key when the previous userId is not null, items is reset to a
fresh empty array (a new reference), and the new userId is set. -/
def switchState (newUserId : Option String) (s : ProviderState) :
    ProviderState :=
  { s with store := flushStore s, items := [], itemsRef := s.itemsRef + 1,
           userId := newUserId }

/-- setUserId of CartContext: the synchronous updater part, then the
effects run. -/
def setUserId (newUserId : Option String) (s : ProviderState) : ProviderState :=
  settle (switchState newUserId s)

/-- The state right after a setItems updater returned the fresh array
newItems: the reference counter is bumped. -/
def rerenderItems (newItems : List CartItem) (s : ProviderState) :
    ProviderState :=
  { s with items := newItems, itemsRef := s.itemsRef + 1 }

/-- Whether the addToCart updater returns a fresh array (every branch except
the stock rejection on an existing line). -/
def addMakesNewArray (product : Product) (quantity : Int)
    (items : List CartItem) : Bool :=
  match items.find? (fun item => item.productId == product.id) with
  | some _ => decide (quantity ≤ product.stock)
  | none => true

/-- A provider-level step: an identity switch or one of the mutations. -/
inductive ProviderOp where
  | setUser (newUserId : Option String)
  | add (product : Product) (quantity : Int)
  | update (productId : String) (quantity : Int)
  | remove (productId : String)
  | clear

/-- Run one provider step and settle the effects.  Mutations other than the
rejection branch of addToCart produce a fresh items array, so they bump the
reference counter and re-trigger the persist effect. -/
def stepOp (op : ProviderOp) (s : ProviderState) : ProviderState :=
  match op with
  | .setUser newUserId => setUserId newUserId s
  | .add product quantity =>
      if addMakesNewArray product quantity s.items then
        settle (rerenderItems (addToCart product quantity s.items) s)
      else settle s
  | .update productId quantity =>
      settle (rerenderItems (updateQuantity productId quantity s.items) s)
  | .remove productId =>
      settle (rerenderItems (removeFromCart productId s.items) s)
  | .clear =>
      settle (rerenderItems (clearCart s.items) s)

/-- Run a list of provider steps from a freshly mounted provider. -/
def runProvider (store : CartStore) (ops : List ProviderOp) : ProviderState :=
  ops.foldl (fun s op => stepOp op s) (initProvider store)

/-! ## OrderDetails page: payment handling -/

/-- Order status as served by the backend. -/
inductive OrderStatus where
  | created
  | paid
  | cancelled
  deriving DecidableEq, Repr

/-- The order record OrderDetails holds (fields the payment logic reads). -/
structure Order where
  id : String
  status : OrderStatus
  totalCents : Int
  deriving DecidableEq, Repr

/-- React state of the OrderDetails page that the payment logic touches,
plus a flag recording that the catch branch scheduled the delayed
loadOrder call. -/
structure OrderPageState where
  order : Option Order
  error : Option String
  paying : Bool
  refetchScheduled : Bool
  deriving DecidableEq, Repr

/-- Outcome of a network round-trip as seen by the page: the parsed order,
or a thrown error's message. -/
inductive NetResult where
  | ok (order : Order)
  | err (msg : String)
  deriving DecidableEq, Repr

/-- Character-list prefix test, mirroring how a substring search begins. -/
def charsHavePrefix : List Char → List Char → Bool
  | _, [] => true
  | [], _ :: _ => false
  | c :: cs, p :: ps => c == p && charsHavePrefix cs ps

/-- Character-list infix test. -/
def charsHaveInfix : List Char → List Char → Bool
  | [], pat => pat.isEmpty
  | c :: cs, pat => charsHavePrefix (c :: cs) pat || charsHaveInfix cs pat

/-- String.prototype.includes of JavaScript. -/
def strIncludes (s pat : String) : Bool := charsHaveInfix s.data pat.data

/-- handlePay of OrderDetails.tsx, given the outcome the payOrder request
would produce.  Returns the new page state and whether the network call was
issued.  The guard returns untouched without a call unless an order is
loaded with status created.  On success the updated order is stored and the
error cleared; on a thrown error the message is stored in the error state
and, exactly when the message contains "not found" or "404", one delayed
loadOrder is scheduled. -/
def handlePay (s : OrderPageState) (outcome : NetResult) :
    OrderPageState × Bool :=
  match s.order with
  | none => (s, false)
  | some order =>
      if order.status ≠ .created then (s, false)
      else
        match outcome with
        | .ok updatedOrder =>
            ({ s with order := some updatedOrder, error := none,
                      paying := false }, true)
        | .err msg =>
            ({ s with error := some msg, paying := false,
                      refetchScheduled :=
                        strIncludes msg "not found" || strIncludes msg "404" },
             true)

/-- loadOrder of OrderDetails.tsx, given the outcome the getOrder request
would produce: on success the order is replaced (the error state is not
cleared); on a thrown error the message is stored. -/
def loadOrder (s : OrderPageState) (outcome : NetResult) : OrderPageState :=
  match outcome with
  | .ok order => { s with order := some order }
  | .err msg => { s with error := some msg }

/-- The delayed re-fetch firing: the scheduled flag is consumed and
loadOrder runs. -/
def runScheduledRefetch (s : OrderPageState) (outcome : NetResult) :
    OrderPageState :=
  loadOrder { s with refetchScheduled := false } outcome

/-! ## Cart page: handleCheckout -/

/-- What handleCheckout did, as observable from the page. -/
inductive CheckoutOutcome where
  | notAuthenticated
  | emptyCart
  | ordered (orderId : String)
  | failed (msg : String)
  deriving DecidableEq, Repr

/-- Result of running handleCheckout: the outcome, the items afterwards,
and whether the createOrder request was issued. -/
structure CheckoutRes where
  outcome : CheckoutOutcome
  items : List CartItem
  serverCalled : Bool
  deriving DecidableEq, Repr

/-- handleCheckout of the Cart page, given the authentication flag, the
cart items and the createOrder behaviour.  An unauthenticated user is
redirected; an empty cart sets the empty-cart error; otherwise the
(productId, quantity) pairs are sent, and only on success is clearCart
called. -/
def handleCheckout (isAuthenticated : Bool) (items : List CartItem)
    (createOrder : List (String × Int) → NetResult) : CheckoutRes :=
  if !isAuthenticated then
    { outcome := .notAuthenticated, items := items, serverCalled := false }
  else if items.length = 0 then
    { outcome := .emptyCart, items := items, serverCalled := false }
  else
    match createOrder (items.map (fun item => (item.productId, item.quantity))) with
    | .ok order =>
        { outcome := .ordered order.id, items := clearCart items,
          serverCalled := true }
    | .err msg =>
        { outcome := .failed msg, items := items, serverCalled := true }

/-! ## Helper lemmas on the pure cart operations -/

/-- No line of the list matches the product id. -/
theorem find?_eq_none_of_absent {items : List CartItem} {pid : String}
    (h : ∀ item ∈ items, item.productId ≠ pid) :
    items.find? (fun item => item.productId == pid) = none := by
  rw [List.find?_eq_none]
  intro x hx
  simpa using h x hx

/-- Mapping a quantity rewrite over lines that all miss the id is the
identity. -/
theorem map_update_eq_self {items : List CartItem} {pid : String}
    {f : CartItem → CartItem}
    (h : ∀ item ∈ items, item.productId ≠ pid) :
    (items.map (fun item => if item.productId == pid then f item else item)) =
      items := by
  have hcongr := List.map_congr_left (l := items)
    (f := fun item => if item.productId == pid then f item else item)
    (g := id) (by intro a ha; simp [h a ha])
  simpa using hcongr

/-- One applyOp step keeps every line within the stock bound, given a
well-bounded request. -/
theorem applyOp_bounded (op : CartOp) (items : List CartItem)
    (hv : validOp op items = true)
    (hinv : ∀ item ∈ items, lineBounded item) :
    ∀ item ∈ applyOp op items, lineBounded item := by
  cases op with
  | add product quantity =>
      intro item hm
      simp only [validOp, Bool.and_eq_true, List.all_eq_true,
        decide_eq_true_eq, Bool.or_eq_true, bne_iff_ne] at hv
      obtain ⟨⟨h1, h2⟩, h3⟩ := hv
      simp only [applyOp, addToCart] at hm
      cases hfind : List.find? (fun it => it.productId == product.id) items with
      | none =>
          rw [hfind] at hm
          rcases List.mem_append.mp hm with hmem | hmem
          · exact hinv item hmem
          · have : item = insertedLine product quantity := by simpa using hmem
            subst this
            exact ⟨h1, h2⟩
      | some found =>
          rw [hfind] at hm
          rw [if_neg (not_lt.mpr h2)] at hm
          rcases List.mem_map.mp hm with ⟨a, ha, hfa⟩
          by_cases hid : a.productId = product.id
          · rw [if_pos (by simpa using hid)] at hfa
            subst hfa
            rcases h3 a ha with hne | hle
            · exact absurd hid hne
            · exact ⟨h1, hle⟩
          · rw [if_neg (by simpa using hid)] at hfa
            subst hfa
            exact hinv a ha
  | update pid quantity =>
      intro item hm
      simp only [applyOp, updateQuantity] at hm
      by_cases hq : quantity ≤ 0
      · rw [if_pos hq] at hm
        exact hinv item ((List.mem_filter.mp hm).1)
      · rw [if_neg hq] at hm
        rcases List.mem_map.mp hm with ⟨a, ha, hfa⟩
        by_cases hid : a.productId = pid
        · rw [if_pos (by simpa using hid)] at hfa
          by_cases hs : quantity > a.stock
          · rw [if_pos hs] at hfa
            subst hfa
            exact hinv a ha
          · rw [if_neg hs] at hfa
            subst hfa
            constructor
            · show (1 : Int) ≤ quantity
              omega
            · show quantity ≤ a.stock
              exact not_lt.mp hs
        · rw [if_neg (by simpa using hid)] at hfa
          subst hfa
          exact hinv a ha
  | remove pid =>
      intro item hm
      simp only [applyOp, removeFromCart] at hm
      exact hinv item ((List.mem_filter.mp hm).1)

/-- Trace invariant: a valid trace keeps every line within bounds. -/
theorem runOpsFrom_bounded (ops : List CartOp) :
    ∀ items : List CartItem, validOps items ops = true →
      (∀ item ∈ items, lineBounded item) →
      ∀ item ∈ runOpsFrom items ops, lineBounded item := by
  induction ops with
  | nil =>
      intro items _ hinv item hm
      exact hinv item hm
  | cons op rest ih =>
      intro items hvalid hinv
      rw [show runOpsFrom items (op :: rest) =
            runOpsFrom (applyOp op items) rest from rfl]
      rw [validOps, Bool.and_eq_true] at hvalid
      exact ih (applyOp op items) hvalid.2
        (applyOp_bounded op items hvalid.1 hinv)

/-- addToCart on a cart missing the product id appends the snapshot line. -/
theorem addToCart_absent {items : List CartItem} {product : Product}
    (quantity : Int) (h : ∀ item ∈ items, item.productId ≠ product.id) :
    addToCart product quantity items =
      items ++ [insertedLine product quantity] := by
  unfold addToCart
  rw [find?_eq_none_of_absent h]

/-- addToCart on a cart containing the product id: the previous array is
kept wholesale above the snapshot stock, otherwise matching quantities are
replaced. -/
theorem addToCart_present {items : List CartItem} {product : Product}
    {found : CartItem} (quantity : Int)
    (h : items.find? (fun item => item.productId == product.id) = some found) :
    addToCart product quantity items =
      if product.stock < quantity then items
      else items.map (fun item =>
        if item.productId == product.id then { item with quantity := quantity }
        else item) := by
  unfold addToCart
  rw [h]

/-! ## Sample values used by concrete counterexamples and witnesses -/

/-- Sample snapshot with stock 3 (the spec's clamping scenario). -/
def sampleP1 : Product :=
  { id := "p1", name := "toy", priceCents := 100, imageBase64 := none,
    stock := 3 }

/-- Sample stored line with quantity 2 and stock 5 (the spec's
updateQuantity scenario). -/
def sampleLineP1 : CartItem :=
  { productId := "p1", name := "toy", priceCents := 100, imageBase64 := none,
    quantity := 2, stock := 5 }

/-- Fresh snapshot of the same product with different catalog data and a
smaller stock. -/
def sampleSnapStock2 : Product :=
  { id := "p1", name := "toy v2", priceCents := 200, imageBase64 := none,
    stock := 2 }

/-! ## C1 -/

/-- C1 (amended): for every trace whose addToCart requests each ask for at
least one unit, at most the snapshot's stock and at most the stored stock of
an existing line for the same product, every line of the resulting cart has
quantity at least 1 and at most the stock recorded on the line — which is
the stock recorded at the line's last mutation, since the stored stock is
written at insertion and never updated afterwards. -/
theorem cart_quantity_invariant (ops : List CartOp)
    (hvalid : validOps [] ops = true) :
    ∀ item ∈ runOps ops, lineBounded item :=
  runOpsFrom_bounded ops [] hvalid
    (by intro item hm; exact absurd hm (List.not_mem_nil item))

/-- C1 counterexample: addToCart does not clamp an insertion, so a single
add requesting 5 units against snapshot stock 3 produces a line whose
quantity 5 exceeds the stock 3 recorded at its only (insertion) mutation. -/
theorem cart_quantity_invariant_cex :
    ¬ ∀ item ∈ runOps [CartOp.add sampleP1 5], lineBounded item := by
  decide

/-- C1 witness: a concrete valid trace satisfying the invariant. -/
theorem cart_quantity_invariant_witness :
    validOps [] [CartOp.add sampleP1 2, CartOp.update "p1" 3] = true ∧
    ∀ item ∈ runOps [CartOp.add sampleP1 2, CartOp.update "p1" 3],
      lineBounded item :=
  ⟨by decide, cart_quantity_invariant _ (by decide)⟩

/-! ## C2 -/

/-- C2 counterexample: on an empty cart, requesting 5 units against snapshot
stock 3 creates a line with quantity 5, not the claimed min 5 3 = 3; no
clamping happens. -/
theorem addToCart_no_clamp_cex :
    (addToCart sampleP1 5 []).map (fun item => item.quantity) = [5] ∧
    ¬ (addToCart sampleP1 5 []).map (fun item => item.quantity) =
        [min 5 3] := by
  decide

/-- C2 (amended): when the product id is absent, addToCart inserts exactly
one new line whose quantity is the raw requested quantity (no clamping to
stock or to 1, and nothing is signalled); when it is present, the quantity
is replaced by the request if it is at most the snapshot's stock and the
cart is left unchanged otherwise.  Hence two adds for the same product id
leave exactly one line for it, with the second request when that is within
the second snapshot's stock and the first request otherwise — never the
sum. -/
theorem addToCart_insert_and_replace (p p2 : Product) (q1 q2 : Int)
    (items : List CartItem)
    (habs : ∀ item ∈ items, item.productId ≠ p.id)
    (hid : p2.id = p.id) :
    addToCart p q1 items = items ++ [insertedLine p q1] ∧
    addToCart p2 q2 (addToCart p q1 items) =
      items ++ [{ insertedLine p q1 with
                    quantity := if p2.stock < q2 then q1 else q2 }] := by
  have h1 := addToCart_absent q1 habs
  refine ⟨h1, ?_⟩
  rw [h1]
  have habs2 : ∀ item ∈ items, item.productId ≠ p2.id := by
    intro item hm
    rw [hid]
    exact habs item hm
  have hfind : (items ++ [insertedLine p q1]).find?
      (fun item => item.productId == p2.id) = some (insertedLine p q1) := by
    rw [List.find?_append, find?_eq_none_of_absent habs2]
    simp [insertedLine, hid]
  rw [addToCart_present q2 hfind]
  by_cases hc : p2.stock < q2
  · rw [if_pos hc, if_pos hc]
    simp [insertedLine]
  · rw [if_neg hc, if_neg hc]
    rw [List.map_append, map_update_eq_self habs2]
    simp [insertedLine, hid]

/-- C2 witness: the amended behaviour at a concrete double add. -/
theorem addToCart_insert_and_replace_witness :
    addToCart sampleP1 2 [] = [insertedLine sampleP1 2] ∧
    addToCart sampleP1 5 (addToCart sampleP1 2 []) =
      [{ insertedLine sampleP1 2 with
           quantity := if sampleP1.stock < 5 then 2 else 5 }] := by
  have h := addToCart_insert_and_replace sampleP1 sampleP1 2 5 []
    (by intro item hm; exact absurd hm (List.not_mem_nil item)) rfl
  simpa using h

/-! ## C5 -/

/-- C5: updateQuantity with a quantity below 1 equals removeFromCart, and a
quantity above every matching line's stored stock leaves the whole cart
unchanged — the operation is refused, not clamped. -/
theorem updateQuantity_reject_and_remove (pid : String) (q : Int)
    (items : List CartItem) :
    (q < 1 → updateQuantity pid q items = removeFromCart pid items) ∧
    (1 ≤ q → (∀ item ∈ items, item.productId = pid → item.stock < q) →
      updateQuantity pid q items = items) := by
  constructor
  · intro hq
    unfold updateQuantity
    rw [if_pos (by omega)]
  · intro hq hstock
    unfold updateQuantity
    rw [if_neg (by omega)]
    have hcongr := List.map_congr_left (l := items)
      (f := fun item => if item.productId == pid then
        (if q > item.stock then item else { item with quantity := q })
        else item)
      (g := id) ?_
    · simpa using hcongr
    · intro a ha
      by_cases hid : a.productId = pid
      · have hgt : q > a.stock := hstock a ha hid
        simp [hid, hgt]
      · simp [hid]

/-- C5 witness: quantity 0 removes; the spec scenario (quantity 10 against
a line with quantity 2, stock 5) leaves the cart unchanged. -/
theorem updateQuantity_reject_and_remove_witness :
    updateQuantity "p1" 0 [sampleLineP1] = removeFromCart "p1" [sampleLineP1] ∧
    updateQuantity "p1" 10 [sampleLineP1] = [sampleLineP1] :=
  ⟨(updateQuantity_reject_and_remove "p1" 0 [sampleLineP1]).1 (by decide),
   (updateQuantity_reject_and_remove "p1" 10 [sampleLineP1]).2 (by decide)
     (by decide)⟩

/-! ## C10 -/

/-- C10 counterexample: the bound addToCart checks on a re-add is the fresh
snapshot's stock, not the stored line's stock: requesting 4 (within the
stored stock 5, above the snapshot stock 2) leaves the cart unchanged
instead of replacing the quantity. -/
theorem addToCart_replace_frame_cex :
    4 ≤ sampleLineP1.stock ∧
    addToCart sampleSnapStock2 4 [sampleLineP1] = [sampleLineP1] ∧
    ¬ sampleLineP1.quantity = 4 := by
  decide

/-- C10 (amended): re-adding a product already in the cart with a quantity
within the fresh snapshot's stock replaces only that line's quantity; the
line keeps name, priceCents, imageBase64 and stock from the original
insertion (the fresh snapshot's values are discarded) and every other line
is unchanged in content and order. -/
theorem addToCart_replace_frame (p : Product) (q : Int)
    (pre post : List CartItem) (line : CartItem)
    (hline : line.productId = p.id)
    (hpre : ∀ item ∈ pre, item.productId ≠ p.id)
    (hpost : ∀ item ∈ post, item.productId ≠ p.id)
    (hq : q ≤ p.stock) :
    addToCart p q (pre ++ line :: post) =
      pre ++ { line with quantity := q } :: post := by
  have hfind : (pre ++ line :: post).find?
      (fun item => item.productId == p.id) = some line := by
    rw [List.find?_append, find?_eq_none_of_absent hpre,
        List.find?_cons_of_pos _ (by simpa using hline)]
    rfl
  rw [addToCart_present q hfind, if_neg (not_lt.mpr hq)]
  rw [List.map_append, List.map_cons, map_update_eq_self hpre,
      map_update_eq_self hpost]
  simp [hline]

/-- C10 witness: a concrete re-add within the snapshot stock replaces the
quantity and keeps the stored catalog snapshot. -/
theorem addToCart_replace_frame_witness :
    addToCart sampleSnapStock2 2 [sampleLineP1] =
      [{ sampleLineP1 with quantity := 2 }] := by
  have h := addToCart_replace_frame sampleSnapStock2 2 [] [] sampleLineP1 rfl
    (by intro item hm; exact absurd hm (List.not_mem_nil item))
    (by intro item hm; exact absurd hm (List.not_mem_nil item))
    (by decide)
  simpa using h

/-! ## C7 and C8: payment handling -/

/-- Sample page state holding an order already paid. -/
def samplePaidPage : OrderPageState :=
  { order := some { id := "o1", status := .paid, totalCents := 100 },
    error := none, paying := false, refetchScheduled := false }

/-- Sample page state holding an order in status created. -/
def sampleCreatedPage : OrderPageState :=
  { order := some { id := "o1", status := .created, totalCents := 100 },
    error := none, paying := false, refetchScheduled := false }

/-- C7: handlePay on an order cached in a terminal state (paid or
cancelled) returns the page state unchanged and issues no network call, for
any outcome the request would have had. -/
theorem handlePay_terminal_noop (s : OrderPageState) (order : Order)
    (outcome : NetResult) (horder : s.order = some order)
    (hterm : order.status = .paid ∨ order.status = .cancelled) :
    handlePay s outcome = (s, false) := by
  have hne : order.status ≠ .created := by
    rcases hterm with h | h <;> simp [h]
  simp only [handlePay, horder]
  rw [if_pos hne]

/-- C7 witness: paying an already paid order changes nothing and calls no
network. -/
theorem handlePay_terminal_noop_witness :
    handlePay samplePaidPage
        (.ok { id := "o1", status := .paid, totalCents := 100 }) =
      (samplePaidPage, false) :=
  handlePay_terminal_noop samplePaidPage
    { id := "o1", status := .paid, totalCents := 100 }
    (.ok { id := "o1", status := .paid, totalCents := 100 }) rfl (Or.inl rfl)

/-- C8 counterexample: a timed-out payment attempt on a created order does
not schedule any automatic re-fetch (only messages containing "not found"
or "404" do), and the failure message is surfaced in the error state. -/
theorem handlePay_timeout_no_refetch_cex :
    (handlePay sampleCreatedPage (.err "Request timed out")).1.refetchScheduled
        = false ∧
    (handlePay sampleCreatedPage (.err "Request timed out")).1.error =
        some "Request timed out" := by
  decide

/-- C8 (amended): a failed payment attempt on a created order stores the
failure message in the error state (it is surfaced), leaves the cached
order unchanged, and schedules the single delayed re-fetch exactly when the
message contains "not found" or "404"; when that re-fetch resolves, the
cached order is replaced by the server's state but the surfaced error
message is not cleared. -/
theorem handlePay_failure_refetch (s : OrderPageState) (order : Order)
    (msg : String) (horder : s.order = some order)
    (hcreated : order.status = .created) :
    (handlePay s (.err msg)).2 = true ∧
    (handlePay s (.err msg)).1.order = s.order ∧
    (handlePay s (.err msg)).1.error = some msg ∧
    (handlePay s (.err msg)).1.refetchScheduled =
      (strIncludes msg "not found" || strIncludes msg "404") ∧
    ∀ resolved : Order,
      (runScheduledRefetch (handlePay s (.err msg)).1 (.ok resolved)).order =
          some resolved ∧
      (runScheduledRefetch (handlePay s (.err msg)).1 (.ok resolved)).error =
          some msg := by
  simp [handlePay, runScheduledRefetch, loadOrder, horder, hcreated]

/-- C8 witness: a not-found-like failure schedules the re-fetch and the
re-fetch adopts the server's paid state. -/
theorem handlePay_failure_refetch_witness :
    (handlePay sampleCreatedPage (.err "Order not found")).1.refetchScheduled
        = true ∧
    (runScheduledRefetch
        (handlePay sampleCreatedPage (.err "Order not found")).1
        (.ok { id := "o1", status := .paid, totalCents := 100 })).order =
      some { id := "o1", status := .paid, totalCents := 100 } := by
  have h := handlePay_failure_refetch sampleCreatedPage
    { id := "o1", status := .created, totalCents := 100 } "Order not found"
    rfl rfl
  exact ⟨by rw [h.2.2.2.1]; decide,
         (h.2.2.2.2 { id := "o1", status := .paid, totalCents := 100 }).1⟩

/-! ## C9: checkout -/

/-- A createOrder stub that rejects every request. -/
def failingServer : List (String × Int) → NetResult :=
  fun _ => .err "Failed to create order"

/-- C9: an authenticated checkout of a cart with zero lines produces the
empty-cart failure without calling the server and with the cart unchanged;
clearCart followed by checkout hits that same path; and every submission
ending in a failure outcome leaves the cart fully intact. -/
theorem handleCheckout_empty_and_reject (items : List CartItem)
    (createOrder : List (String × Int) → NetResult) :
    handleCheckout true [] createOrder =
      { outcome := .emptyCart, items := [], serverCalled := false } ∧
    handleCheckout true (clearCart items) createOrder =
      { outcome := .emptyCart, items := clearCart items,
        serverCalled := false } ∧
    ∀ isAuth msg,
      (handleCheckout isAuth items createOrder).outcome = .failed msg →
        (handleCheckout isAuth items createOrder).items = items := by
  refine ⟨rfl, rfl, ?_⟩
  intro isAuth msg h
  cases isAuth with
  | false => rfl
  | true =>
      simp only [handleCheckout, Bool.not_true, Bool.false_eq_true,
        if_false] at h ⊢
      by_cases hlen : items.length = 0
      · rw [if_pos hlen] at h
        exact absurd h (by simp)
      · rw [if_neg hlen] at h ⊢
        cases hres : createOrder
            (items.map fun item => (item.productId, item.quantity)) with
        | ok o => rw [hres] at h; exact absurd h (by simp)
        | err m => rfl

/-- C9 witness: the empty-cart path on a rejecting server, and a rejected
non-empty submission leaving the line in place. -/
theorem handleCheckout_empty_and_reject_witness :
    handleCheckout true [] failingServer =
      { outcome := .emptyCart, items := [], serverCalled := false } ∧
    (handleCheckout true [sampleLineP1] failingServer).items =
      [sampleLineP1] :=
  ⟨(handleCheckout_empty_and_reject [] failingServer).1,
   (handleCheckout_empty_and_reject [sampleLineP1] failingServer).2.2 true
     "Failed to create order" (by decide)⟩

/-! ## Lemmas about the provider effects -/

/-- Reading the key just written. -/
theorem storePut_same (store : CartStore) (key : String)
    (items : List CartItem) : storePut store key items key = some items := by
  simp [storePut]

/-- Reading another key is unaffected by a write. -/
theorem storePut_other (store : CartStore) (key k : String)
    (items : List CartItem) (h : k ≠ key) :
    storePut store key items k = store k := by
  simp [storePut, h]

/-- Distinct user ids give distinct cart keys. -/
theorem getCartKey_some_ne {a b : String} (h : a ≠ b) :
    getCartKey (some a) ≠ getCartKey (some b) := by
  intro heq
  apply h
  apply String.ext
  have hd := congrArg String.data heq
  rw [show getCartKey (some a) = "cart_" ++ a from rfl,
      show getCartKey (some b) = "cart_" ++ b from rfl,
      String.data_append, String.data_append] at hd
  exact List.append_cancel_left hd

/-- The flush leaves the active user's key holding the in-memory items. -/
theorem flushStore_at_key (s : ProviderState) (u : String)
    (h : s.userId = some u) :
    flushStore s (getCartKey (some u)) = some s.items := by
  unfold flushStore
  rw [h]
  exact storePut_same s.store (getCartKey (some u)) s.items

/-- The flush leaves every key other than the active user's untouched. -/
theorem flushStore_at_ne (s : ProviderState) (k : String)
    (h : ∀ u, s.userId = some u → k ≠ getCartKey (some u)) :
    flushStore s k = s.store k := by
  unfold flushStore
  cases hu : s.userId with
  | none => rfl
  | some u =>
      show storePut s.store (getCartKey (some u)) s.items k = s.store k
      exact storePut_other s.store (getCartKey (some u)) k s.items (h u hu)

/-- Load effect skipped: the userId dependency did not change. -/
theorem settleLoad_eq_of_seen {s : ProviderState}
    (h : s.loadSeen = some s.userId) : settleLoad s = s := by
  unfold settleLoad
  rw [if_pos h]

/-- Load effect runs: the userId dependency changed. -/
theorem settleLoad_eq_of_new {s : ProviderState}
    (h : s.loadSeen ≠ some s.userId) :
    settleLoad s = { s with items := (s.store (getCartKey s.userId)).getD [],
                            itemsRef := s.itemsRef + 1,
                            loadSeen := some s.userId } := by
  unfold settleLoad
  rw [if_neg h]

/-- The load effect never touches the store. -/
theorem settleLoad_store (s : ProviderState) :
    (settleLoad s).store = s.store := by
  unfold settleLoad
  split <;> rfl

/-- The load effect never touches the userId. -/
theorem settleLoad_userId (s : ProviderState) :
    (settleLoad s).userId = s.userId := by
  unfold settleLoad
  split <;> rfl

/-- The load effect leaves its own dependency record at the current
userId. -/
theorem settleLoad_loadSeen (s : ProviderState) :
    (settleLoad s).loadSeen = some s.userId := by
  unfold settleLoad
  split
  · assumption
  · rfl

/-- Persist effect skipped: its dependencies did not change. -/
theorem settlePersist_eq_of_seen {s : ProviderState}
    (h : s.persistSeen = some (s.itemsRef, s.userId)) : settlePersist s = s := by
  unfold settlePersist
  rw [if_pos h]

/-- Persist effect runs: a dependency changed. -/
theorem settlePersist_eq_of_new {s : ProviderState}
    (h : ¬ s.persistSeen = some (s.itemsRef, s.userId)) :
    settlePersist s = { s with store := flushStore s,
                               persistSeen := some (s.itemsRef, s.userId) } := by
  unfold settlePersist
  rw [if_neg h]

/-- The persist effect never touches the items. -/
theorem settlePersist_items (s : ProviderState) :
    (settlePersist s).items = s.items := by
  unfold settlePersist
  split <;> rfl

/-- The persist effect never touches the userId. -/
theorem settlePersist_userId (s : ProviderState) :
    (settlePersist s).userId = s.userId := by
  unfold settlePersist
  split <;> rfl

/-- The persist effect never touches the load record. -/
theorem settlePersist_loadSeen (s : ProviderState) :
    (settlePersist s).loadSeen = s.loadSeen := by
  unfold settlePersist
  split <;> rfl

/-- The persist effect never touches the reference counter. -/
theorem settlePersist_itemsRef (s : ProviderState) :
    (settlePersist s).itemsRef = s.itemsRef := by
  unfold settlePersist
  split <;> rfl

/-- The persist effect leaves its own dependency record current. -/
theorem settlePersist_persistSeen (s : ProviderState) :
    (settlePersist s).persistSeen = some (s.itemsRef, s.userId) := by
  unfold settlePersist
  split
  · assumption
  · rfl

/-- Settling preserves the userId. -/
theorem settle_userId (s : ProviderState) : (settle s).userId = s.userId := by
  unfold settle
  rw [settlePersist_userId, settleLoad_userId]

/-- After settling, the load record matches the userId. -/
theorem settle_loadSeen (s : ProviderState) :
    (settle s).loadSeen = some s.userId := by
  unfold settle
  rw [settlePersist_loadSeen, settleLoad_loadSeen]

/-- After settling, the persist record matches the dependencies. -/
theorem settle_persistSeen (s : ProviderState) :
    (settle s).persistSeen = some ((settle s).itemsRef, (settle s).userId) := by
  unfold settle
  rw [settlePersist_persistSeen, settlePersist_itemsRef, settlePersist_userId,
      settleLoad_userId]

/-- A state whose effects have run for the current dependency values. -/
def Settled (s : ProviderState) : Prop :=
  s.loadSeen = some s.userId ∧ s.persistSeen = some (s.itemsRef, s.userId)

/-- Settling always yields a settled state. -/
theorem settle_settled (s : ProviderState) : Settled (settle s) :=
  ⟨by rw [settle_loadSeen, settle_userId], settle_persistSeen s⟩

/-- Settling a settled state changes nothing. -/
theorem settle_of_settled {s : ProviderState} (h : Settled s) : settle s = s := by
  unfold settle
  rw [settleLoad_eq_of_seen h.1, settlePersist_eq_of_seen h.2]

/-- The load effect never touches the persist record. -/
theorem settleLoad_persistSeen (s : ProviderState) :
    (settleLoad s).persistSeen = s.persistSeen := by
  unfold settleLoad
  split <;> rfl

/-- The load effect can only grow the reference counter. -/
theorem settleLoad_itemsRef_ge (s : ProviderState) :
    s.itemsRef ≤ (settleLoad s).itemsRef := by
  unfold settleLoad
  split
  · exact le_refl _
  · exact Nat.le_succ _

/-- The items after settling are the items after the load pass. -/
theorem settle_items (s : ProviderState) :
    (settle s).items = (settleLoad s).items := by
  unfold settle
  rw [settlePersist_items]

/-- Items after settling when the load effect is skipped. -/
theorem settle_items_of_skip {s : ProviderState}
    (h : s.loadSeen = some s.userId) : (settle s).items = s.items := by
  rw [settle_items, settleLoad_eq_of_seen h]

/-- Items after settling when the load effect runs: the stored snapshot of
the current key (or empty). -/
theorem settle_items_of_load {s : ProviderState}
    (h : s.loadSeen ≠ some s.userId) :
    (settle s).items = (s.store (getCartKey s.userId)).getD [] := by
  rw [settle_items, settleLoad_eq_of_new h]

/-- The persist pass leaves keys other than the active user's untouched. -/
theorem settlePersist_store_at (s : ProviderState) (k : String)
    (hk : ∀ u, s.userId = some u → k ≠ getCartKey (some u)) :
    (settlePersist s).store k = s.store k := by
  unfold settlePersist
  split
  · rfl
  · exact flushStore_at_ne s k hk

/-- From a settled state, any render that bumps the reference counter makes
the persist effect run again after the next load pass. -/
theorem settle_persist_new_of_settled (s : ProviderState) (h : Settled s)
    (t : ProviderState) (hpe : t.persistSeen = s.persistSeen)
    (hir : t.itemsRef = s.itemsRef + 1) :
    ¬ t.persistSeen = some ((settleLoad t).itemsRef, t.userId) := by
  intro heq
  have hge := settleLoad_itemsRef_ge t
  rw [hpe, h.2] at heq
  have hfst := congrArg Prod.fst (Option.some.inj heq)
  simp only at hfst
  omega

/-- Invariant C6 is about: for a non-null active identity the store holds
exactly the in-memory items under the active key. -/
def StoreInv (s : ProviderState) : Prop :=
  ∀ u, s.userId = some u → s.store (getCartKey (some u)) = some s.items

/-- Settling establishes the store invariant whenever the persist effect is
due to run after the load pass. -/
theorem settle_storeinv (t : ProviderState)
    (hp : ¬ t.persistSeen = some ((settleLoad t).itemsRef, t.userId)) :
    StoreInv (settle t) := by
  intro u hu
  rw [settle_userId] at hu
  have hw : (settle t).store = flushStore (settleLoad t) := by
    unfold settle
    rw [settlePersist_eq_of_new (by
      rw [settleLoad_persistSeen, settleLoad_userId]; exact hp)]
  rw [hw, settle_items]
  exact flushStore_at_key (settleLoad t) u
    (by rw [settleLoad_userId]; exact hu)

/-- setUserId ends on the requested userId. -/
theorem setUserId_userId (nu : Option String) (s : ProviderState) :
    (setUserId nu s).userId = nu := by
  unfold setUserId
  rw [settle_userId]
  rfl

/-- setUserId ends with the load record at the requested userId. -/
theorem setUserId_loadSeen (nu : Option String) (s : ProviderState) :
    (setUserId nu s).loadSeen = some nu := by
  unfold setUserId
  rw [settle_loadSeen]
  rfl

/-- setUserId always yields a settled state. -/
theorem setUserId_settled (nu : Option String) (s : ProviderState) :
    Settled (setUserId nu s) := settle_settled (switchState nu s)

/-! ## C3 -/

/-- The empty store. -/
def emptyStore : CartStore := fun _ => none

/-- A store holding one saved line under the key of user u. -/
def sampleStoreU : CartStore :=
  fun k => if k = "cart_u" then some [sampleLineP1] else none

/-- The provider after mounting on sampleStoreU and switching to user u. -/
def sampleAfterFirstSwitch : ProviderState :=
  stepOp (.setUser (some "u")) (initProvider sampleStoreU)

/-- C3 counterexample: after switching to user u (cart loads its one line),
a second setUserId with the same key leaves neither the in-memory items nor
the stored snapshot equal to their values after the first call: both become
empty. -/
theorem setUserId_repeat_not_noop_cex :
    sampleAfterFirstSwitch.items = [sampleLineP1] ∧
    sampleAfterFirstSwitch.store "cart_u" = some [sampleLineP1] ∧
    ¬ ((stepOp (.setUser (some "u")) sampleAfterFirstSwitch).items =
          sampleAfterFirstSwitch.items ∧
       (stepOp (.setUser (some "u")) sampleAfterFirstSwitch).store "cart_u" =
          sampleAfterFirstSwitch.store "cart_u") := by
  decide

/-- C3 (amended): a second consecutive setUserId with the same key is not a
no-op.  The updater flushes and resets the items, but the load effect does
not re-run because the userId dependency did not change, so for a non-null
key the in-memory cart ends empty and the persist effect overwrites the
stored snapshot with the empty cart; for the null (guest) key the in-memory
cart likewise ends empty (nothing is written).  The call is a no-op only
when the cart was already empty. -/
theorem setUserId_repeat_clears (s : ProviderState) (u : String) :
    (setUserId (some u) (setUserId (some u) s)).items = [] ∧
    (setUserId (some u) (setUserId (some u) s)).store (getCartKey (some u)) =
      some [] ∧
    (setUserId none (setUserId none s)).items = [] := by
  have hset := setUserId_settled (some u) s
  have hu := setUserId_userId (some u) s
  have hset0 := setUserId_settled none s
  have hu0 := setUserId_userId none s
  generalize hgen : setUserId (some u) s = s1 at hset hu
  generalize hgen0 : setUserId none s = s0 at hset0 hu0
  have hl : s1.loadSeen = some (some u) := by rw [hset.1, hu]
  have hl0 : s0.loadSeen = some none := by rw [hset0.1, hu0]
  refine ⟨settle_items_of_skip hl, ?_, settle_items_of_skip hl0⟩
  refine Eq.trans (settle_storeinv (switchState (some u) s1)
    (settle_persist_new_of_settled s1 hset (switchState (some u) s1) rfl rfl)
    u (by rw [settle_userId]; rfl)) ?_
  rw [settle_items_of_skip (s := switchState (some u) s1) hl]
  rfl

/-! ## C4 -/

/-- C4 counterexample: the guest (null) identity's cart is never flushed to
the store, so switching guest → user b → guest loses the guest cart: one
line before the round trip, empty after. -/
theorem identity_roundtrip_guest_cex :
    (runProvider emptyStore [.add sampleP1 1]).userId = none ∧
    (runProvider emptyStore [.add sampleP1 1]).items ≠ [] ∧
    (runProvider emptyStore
        [.add sampleP1 1, .setUser (some "b"), .setUser none]).items = [] := by
  decide

/-- C4 (amended): for a non-null identity a, switching to any other
identity b (a user or the guest) and back restores the in-memory cart
exactly, because the first switch flushes a's items under a's key, no later
write touches that key, and the switch back reloads it.  The guest identity
is excluded: its cart is never flushed (see the counterexample). -/
theorem identity_roundtrip (s : ProviderState) (a : String) (b : Option String)
    (hA : s.userId = some a) (hb : b ≠ some a) :
    (setUserId (some a) (setUserId b s)).items = s.items := by
  have f1 : (setUserId b s).userId = b := setUserId_userId b s
  have f3 : (setUserId b s).store (getCartKey (some a)) = some s.items := by
    unfold setUserId settle
    rw [settlePersist_store_at _ _ ?hk]
    case hk =>
      intro u hu
      rw [settleLoad_userId] at hu
      have hu' : b = some u := hu
      apply getCartKey_some_ne
      intro hau
      exact hb (by rw [hau]; exact hu')
    rw [settleLoad_store]
    show flushStore s (getCartKey (some a)) = some s.items
    exact flushStore_at_key s a hA
  have f2 : (setUserId b s).loadSeen = some b := setUserId_loadSeen b s
  generalize hgen : setUserId b s = s1 at f1 f2 f3
  have hne : s1.loadSeen ≠ some (some a) := by
    rw [f2]
    intro h
    exact hb (Option.some.inj h)
  unfold setUserId
  rw [settle_items_of_load (s := switchState (some a) s1) hne]
  show (flushStore s1 (getCartKey (some a))).getD [] = s.items
  rw [flushStore_at_ne s1 _ ?hk2, f3]
  case hk2 =>
    intro u hu
    rw [f1] at hu
    apply getCartKey_some_ne
    intro hau
    exact hb (by rw [hau]; exact hu)
  rfl

/-- A settled provider state for user a holding one line, with empty
backing store. -/
def sampleProviderA : ProviderState :=
  { userId := some "a", items := [sampleLineP1], store := emptyStore,
    loadSeen := some (some "a"), persistSeen := some (0, some "a"),
    itemsRef := 0 }

/-- C4 witness: the round trip a → b → a at a concrete settled state. -/
theorem identity_roundtrip_witness :
    sampleProviderA.userId = some "a" ∧
    (setUserId (some "a") (setUserId (some "b") sampleProviderA)).items =
      sampleProviderA.items :=
  ⟨rfl, identity_roundtrip sampleProviderA "a" (some "b") rfl (by decide)⟩

/-! ## C6 -/

/-- Every provider step preserves settledness and the store invariant. -/
theorem stepOp_preserves (op : ProviderOp) (s : ProviderState)
    (h1 : Settled s) (h2 : StoreInv s) :
    Settled (stepOp op s) ∧ StoreInv (stepOp op s) := by
  cases op with
  | setUser nu =>
      exact ⟨setUserId_settled nu s,
        settle_storeinv (switchState nu s)
          (settle_persist_new_of_settled s h1 (switchState nu s) rfl rfl)⟩
  | add product quantity =>
      simp only [stepOp]
      by_cases hmk : addMakesNewArray product quantity s.items = true
      · rw [if_pos hmk]
        exact ⟨settle_settled _,
          settle_storeinv (rerenderItems (addToCart product quantity s.items) s)
            (settle_persist_new_of_settled s h1 _ rfl rfl)⟩
      · rw [if_neg hmk, settle_of_settled h1]
        exact ⟨h1, h2⟩
  | update productId quantity =>
      exact ⟨settle_settled _,
        settle_storeinv (rerenderItems (updateQuantity productId quantity s.items) s)
          (settle_persist_new_of_settled s h1 _ rfl rfl)⟩
  | remove productId =>
      exact ⟨settle_settled _,
        settle_storeinv (rerenderItems (removeFromCart productId s.items) s)
          (settle_persist_new_of_settled s h1 _ rfl rfl)⟩
  | clear =>
      exact ⟨settle_settled _,
        settle_storeinv (rerenderItems (clearCart s.items) s)
          (settle_persist_new_of_settled s h1 _ rfl rfl)⟩

/-- Every state the provider reaches from a mount is settled and satisfies
the store invariant. -/
theorem runProvider_inv (store0 : CartStore) (ops : List ProviderOp) :
    Settled (runProvider store0 ops) ∧ StoreInv (runProvider store0 ops) := by
  have base1 : Settled (initProvider store0) := settle_settled _
  have base2 : StoreInv (initProvider store0) := by
    intro u hu
    rw [show (initProvider store0).userId = none from by
      unfold initProvider; rw [settle_userId]] at hu
    exact Option.noConfusion hu
  unfold runProvider
  generalize initProvider store0 = s at base1 base2
  induction ops generalizing s with
  | nil => exact ⟨base1, base2⟩
  | cons op rest ih =>
      rw [List.foldl_cons]
      obtain ⟨g1, g2⟩ := stepOp_preserves op s base1 base2
      exact ih (stepOp op s) g1 g2

/-- C6 counterexample: for the guest identity nothing is ever persisted: a
guest addToCart leaves a non-empty in-memory cart while the store still has
nothing under the guest key. -/
theorem guest_mutation_not_persisted_cex :
    (runProvider emptyStore [.add sampleP1 1]).userId = none ∧
    (runProvider emptyStore [.add sampleP1 1]).items ≠ [] ∧
    (runProvider emptyStore [.add sampleP1 1]).store
        (getCartKey (runProvider emptyStore [.add sampleP1 1]).userId) =
      none := by
  decide

/-- C6 (amended): whenever the active identity is non-null, after any
sequence of provider operations (mutations and identity switches, with the
effects settled) the stored snapshot under the active identity's key equals
the in-memory cart.  The guest (null) identity is excluded: its mutations
are never persisted (see the counterexample). -/
theorem mutation_persists_store (store0 : CartStore) (ops : List ProviderOp)
    (u : String) (h : (runProvider store0 ops).userId = some u) :
    (runProvider store0 ops).store (getCartKey (some u)) =
      some (runProvider store0 ops).items :=
  (runProvider_inv store0 ops).2 u h

/-- C6 witness: after switching to user u and adding a line, the store
holds exactly the in-memory cart under the user's key. -/
theorem mutation_persists_store_witness :
    (runProvider emptyStore [.setUser (some "u"), .add sampleP1 1]).userId =
      some "u" ∧
    (runProvider emptyStore [.setUser (some "u"), .add sampleP1 1]).store
        (getCartKey (some "u")) =
      some (runProvider emptyStore
        [.setUser (some "u"), .add sampleP1 1]).items :=
  ⟨by decide,
   mutation_persists_store emptyStore [.setUser (some "u"), .add sampleP1 1]
     "u" (by decide)⟩

end Shop
